import Mathlib

/-!
Verification of the OIDC authentication subsystem of konflux-devlake-mcp
(`src/server/middleware/oidc_auth.py` and
`src/server/middleware/auth_middleware.py`), as a shallow embedding.

Modelling conventions:
* Python strings are Lean `String`; string helpers (`upper`, `lower`,
  Python `str.split()`/`str.split(".")`, substring containment) are defined
  structurally over `List Char` so they compute in the kernel.
* Wall-clock timestamps (Python floats from `time.time()`) and durations are
  integers `Int` (only their ordering and addition are used).
* Network I/O and the `jwt` library are oracles: the decode results and HTTP
  responses the libraries would return for a given token are passed in as
  explicit arguments (`Option`/`Except` values or functions from the token
  string), and a raised exception is an `error`/`none` result.
* The mutable caches on the authenticator object become explicit state values
  threaded through the functions; a `Bool` component records whether an
  upstream network call was made by the step.
-/

set_option autoImplicit false

namespace Oidc

/-- Python `str.upper()` (ASCII case folding, which is all the code compares). -/
def upper (s : String) : String := String.mk (s.toList.map Char.toUpper)

/-- Python `str.lower()`. -/
def lower (s : String) : String := String.mk (s.toList.map Char.toLower)

/-- Auxiliary for `splitOnChar`: splits a character list at every occurrence of
`sep`, keeping empty chunks, with `acc` the reversed current chunk. -/
def splitOnCharAux (sep : Char) : List Char → List Char → List String
  | [], acc => [String.mk acc.reverse]
  | c :: cs, acc =>
    if c = sep then String.mk acc.reverse :: splitOnCharAux sep cs []
    else splitOnCharAux sep cs (c :: acc)

/-- Python `s.split(sep)` for a one-character separator (used as
`token.split(".")` in `_is_access_token`). Keeps empty chunks, so
`"".split(".") = [""]`. -/
def splitOnChar (sep : Char) (s : String) : List String :=
  splitOnCharAux sep s.toList []

/-- Auxiliary for `pySplit`: whitespace-run splitting that drops empty chunks. -/
def pySplitAux : List Char → List Char → List String
  | [], acc => if acc.isEmpty then [] else [String.mk acc.reverse]
  | c :: cs, acc =>
    if c.isWhitespace then
      if acc.isEmpty then pySplitAux cs []
      else String.mk acc.reverse :: pySplitAux cs []
    else pySplitAux cs (c :: acc)

/-- Python `str.split()` with no arguments: split on runs of whitespace and
discard empty strings (used by `_extract_token_from_header` and for the
`scope` claim). -/
def pySplit (s : String) : List String := pySplitAux s.toList []

/-- Auxiliary for `strIn`: is `sub` a prefix of some suffix of the list? -/
def strInAux (sub : List Char) : List Char → Bool
  | [] => sub.isEmpty
  | c :: cs => sub.isPrefixOf (c :: cs) || strInAux sub cs

/-- Python `sub in s` substring containment, as a computable Bool. -/
def strIn (sub s : String) : Bool := strInAux sub.toList s.toList

/-- Python `s.startswith(p)`. -/
def startsWith (p s : String) : Bool := p.toList.isPrefixOf s.toList

/-- `OIDCConfig` dataclass of `oidc_auth.py` with its field defaults. -/
structure OIDCConfig where
  enabled : Bool := false
  issuer_url : String := ""
  client_id : String := ""
  required_scopes : List String := []
  jwks_cache_ttl : Int := 3600
  skip_paths : List String := ["/health", "/security"]
  verify_ssl : Bool := true
  allowed_algorithms : List String := ["RS256"]
  offline_token_enabled : Bool := false
  token_exchange_client_id : String := ""
  access_token_cache_buffer : Int := 60
deriving Repr, DecidableEq

/-- `AuthResult` dataclass of `oidc_auth.py` with its field defaults. -/
structure AuthResult where
  authenticated : Bool := false
  user_id : Option String := none
  username : Option String := none
  email : Option String := none
  groups : List String := []
  scopes : List String := []
  error : Option String := none
  status_code : Nat := 401
deriving Repr, DecidableEq

/-- `OIDCAuthenticator._is_access_token`.

`payloadTyp` is the oracle for the `jwt.decode(token, verify_signature=False)`
step: `none` when that decode raises (or the `typ` claim is not a string, so
`.upper()` raises inside the same inner `try`), `some t` for the value of
`payload.get("typ", "")`. `headerTyp` is the oracle for
`jwt.get_unverified_header(token)`: `none` when the header step raises — which
the outer `except` turns into `return False` — and `some t` for
`header.get("typ", "")`. -/
def is_access_token (offline_token_enabled : Bool) (token : String)
    (payloadTyp : Option String) (headerTyp : Option String) : Bool :=
  if (splitOnChar '.' token).length ≠ 3 then
    false
  else
    let payloadDecision : Option Bool :=
      match payloadTyp with
      | some t =>
        let u := upper t
        if u = "OFFLINE" ∨ u = "REFRESH" then some false
        else if u = "BEARER" then some true
        else none
      | none => none
    match payloadDecision with
    | some b => b
    | none =>
      match headerTyp with
      | none => false
      | some t =>
        let u := upper t
        if strIn "REFRESH" u ∨ u = "RT" then false
        else if offline_token_enabled then false
        else true

/-- `OIDCAuthenticator._extract_token_from_header`: returns
`(token, error_message)`. -/
def extract_token_from_header (auth_header : String) :
    Option String × Option String :=
  if auth_header = "" then
    (none, some "Authorization header is required")
  else
    match pySplit auth_header with
    | [scheme, token] =>
      if lower scheme ≠ "bearer" then
        (none, some "Authorization scheme must be Bearer")
      else
        (some token, none)
    | _ => (none, some "Invalid Authorization header format")

/-! ### JWKS cache (`OIDCAuthenticator._fetch_jwks`) -/

/-- The JWKS document is opaque to the cache logic; it is only stored and
returned. -/
abbrev Jwks := String

/-- The `_jwks_cache` / `_jwks_cache_time` fields of `OIDCAuthenticator`,
initialised to `None` / `0` in `__init__`. -/
structure JwksCacheState where
  jwks_cache : Option Jwks := none
  jwks_cache_time : Int := 0
deriving Repr, DecidableEq

/-- `OIDCAuthenticator._fetch_jwks`, success path. `now` is `time.time()` and
`upstream` is the JWKS document the provider would return if fetched. Returns
the JWKS handed to the caller, the updated cache state, and whether an
upstream fetch was performed. -/
def fetch_jwks (cfg : OIDCConfig) (st : JwksCacheState) (now : Int)
    (upstream : Jwks) : Jwks × JwksCacheState × Bool :=
  match st.jwks_cache with
  | some cached =>
    if now - st.jwks_cache_time < cfg.jwks_cache_ttl then
      (cached, st, false)
    else
      (upstream, { jwks_cache := some upstream, jwks_cache_time := now }, true)
  | none =>
    (upstream, { jwks_cache := some upstream, jwks_cache_time := now }, true)

/-! ### Offline-token exchange and access-token cache
(`OIDCAuthenticator._exchange_offline_token`,
`OIDCAuthenticator._get_access_token_from_offline`) -/

/-- The JSON body of a 2xx token-endpoint response, restricted to the fields
the code reads: `access_token` (absence is an error) and `expires_in`
(defaulted to 300 when absent). -/
structure ExchangeResp where
  access_token : Option String := none
  expires_in : Option Int := none
deriving Repr, DecidableEq

/-- `OIDCAuthenticator._exchange_offline_token`. `httpResult` is the oracle
for the POST to the token endpoint: `Except.error ()` when the request fails
at the HTTP layer (the code raises `RuntimeError`), `Except.ok resp` for a
parsed 2xx JSON body. Returns `(access_token, expires_in)` or an error for
the raised `RuntimeError`. -/
def exchange_offline_token (httpResult : Except Unit ExchangeResp) :
    Except Unit (String × Int) :=
  match httpResult with
  | .error _ => .error ()
  | .ok resp =>
    match resp.access_token with
    | none => .error ()
    | some tok => .ok (tok, resp.expires_in.getD 300)

/-- The `_access_token_cache` dict: offline-token hash ↦
(access token, expiry time). -/
abbrev AccessTokenCache := List (String × String × Int)

/-- Lookup in the access-token cache (Python `token_hash in cache` /
`cache[token_hash]`). -/
def cacheLookup (st : AccessTokenCache) (k : String) : Option (String × Int) :=
  match st with
  | [] => none
  | (k2, v) :: rest => if k2 = k then some v else cacheLookup rest k

/-- Overwriting insert (Python `cache[token_hash] = value`): only the entry
for `k` changes, as observed through `cacheLookup`. -/
def cacheInsert (st : AccessTokenCache) (k : String) (v : String × Int) :
    AccessTokenCache :=
  (k, v) :: st.filter (fun p => p.1 ≠ k)

/-- `OIDCAuthenticator._get_access_token_from_offline`. `hashFn` abstracts
`hashlib.sha256(...).hexdigest()` (`_hash_token`); `httpResult` is the oracle
for the exchange POST as in `exchange_offline_token`; `now` is `time.time()`.
Returns either the `RuntimeError` or (access token, updated cache, whether an
exchange was performed). -/
def get_access_token_from_offline (buffer : Int) (hashFn : String → String)
    (httpResult : Except Unit ExchangeResp) (st : AccessTokenCache)
    (now : Int) (offline_token : String) :
    Except Unit (String × AccessTokenCache × Bool) :=
  let token_hash := hashFn offline_token
  let doExchange : Except Unit (String × AccessTokenCache × Bool) :=
    match exchange_offline_token httpResult with
    | .error _ => .error ()
    | .ok (tok, expires_in) =>
      .ok (tok, cacheInsert st token_hash (tok, now + expires_in), true)
  match cacheLookup st token_hash with
  | some (cached_token, expiry_time) =>
    if now < expiry_time - buffer then .ok (cached_token, st, false)
    else doExchange
  | none => doExchange

/-! ### Token validation (`OIDCAuthenticator.validate_token`) -/

/-- The JWT payload, restricted to the claims `validate_token` reads. `scope`
is `none` when the claim is absent (the code defaults it to `""`). -/
structure Payload where
  sub : Option String := none
  preferred_username : Option String := none
  username : Option String := none
  email : Option String := none
  groups : List String := []
  realm_access_roles : List String := []
  scope : Option String := none
deriving Repr, DecidableEq

/-- Outcome of the cryptographic part of `validate_token` for a given token:
which exception (if any) the `_fetch_jwks` / `_get_signing_key_from_jwt` /
`jwt.decode` steps raise, or the verified payload. -/
inductive VerifyOutcome where
  /-- `jwt.decode` succeeds; signature, `exp`, `iat`, `aud`, `iss` verified. -/
  | ok (payload : Payload)
  /-- `_get_signing_key_from_jwt` raises `PyJWKError`. -/
  | signingKeyError
  /-- `jwt.decode` raises `ExpiredSignatureError`. -/
  | expired
  /-- `jwt.decode` raises `InvalidAudienceError`. -/
  | badAudience
  /-- `jwt.decode` raises `InvalidIssuerError`. -/
  | badIssuer
  /-- `jwt.decode` raises another `InvalidTokenError` with message `detail`. -/
  | invalidToken (detail : String)
  /-- `_fetch_jwks` (or the discovery fetch inside it) raises `RuntimeError`. -/
  | jwksUnavailable
  /-- Any other unexpected exception. -/
  | unexpectedError
deriving Repr, DecidableEq

/-- Python `a or b` on optional strings (`None` and `""` are falsy). -/
def pyOr (a b : Option String) : Option String :=
  match a with
  | some s => if s = "" then b else some s
  | none => b

/-- Python's set difference `set(required) - set(granted)`, as a
duplicate-free list. -/
def missingScopes (required granted : List String) : List String :=
  (required.filter (fun s => ¬ granted.contains s)).dedup

/-- The interior of Python's `str` rendering of a non-empty set of strings
(as interpolated by `f"Missing required scopes: {missing_scopes}"`): each
element single-quoted, comma-separated. -/
def formatScopeSet : List String → String
  | [] => ""
  | [s] => "\x27" ++ s ++ "\x27"
  | s :: rest => "\x27" ++ s ++ "\x27, " ++ formatScopeSet rest

/-- `OIDCAuthenticator.validate_token`. The network and crypto steps are
summarised by the `outcome` oracle; everything after `jwt.decode` succeeds
(claim extraction, scope enforcement) is computed from the payload exactly as
the code does. -/
def validate_token (cfg : OIDCConfig) (outcome : VerifyOutcome) : AuthResult :=
  match outcome with
  | .jwksUnavailable =>
    { authenticated := false, error := some "Authentication service unavailable",
      status_code := 503 }
  | .unexpectedError =>
    { authenticated := false, error := some "Internal authentication error",
      status_code := 500 }
  | .signingKeyError =>
    { authenticated := false, error := some "Invalid token signature",
      status_code := 401 }
  | .expired =>
    { authenticated := false, error := some "Token has expired",
      status_code := 401 }
  | .badAudience =>
    { authenticated := false, error := some "Invalid token audience",
      status_code := 401 }
  | .badIssuer =>
    { authenticated := false, error := some "Invalid token issuer",
      status_code := 401 }
  | .invalidToken detail =>
    { authenticated := false, error := some ("Invalid token: " ++ detail),
      status_code := 401 }
  | .ok payload =>
    let user_id := payload.sub
    let username := pyOr payload.preferred_username payload.username
    let email := payload.email
    let groups :=
      if payload.groups = [] then payload.realm_access_roles else payload.groups
    let scopes := pySplit (payload.scope.getD "")
    let missing := missingScopes cfg.required_scopes scopes
    if cfg.required_scopes ≠ [] ∧ missing ≠ [] then
      { authenticated := false,
        error := some ("Missing required scopes: \x7b" ++ formatScopeSet missing
          ++ "\x7d"),
        status_code := 403 }
    else
      { authenticated := true, user_id := user_id, username := username,
        email := email, groups := groups, scopes := scopes, error := none,
        status_code := 200 }

/-! ### Request authentication (`OIDCAuthenticator.authenticate_request`) -/

/-- Oracles for the library and network effects reached from
`authenticate_request`, each a function of the token string involved. -/
structure AuthOracle where
  /-- Unverified-payload `typ` for a token (see `is_access_token`). -/
  payloadTyp : String → Option String
  /-- Unverified-header `typ` for a token (see `is_access_token`). -/
  headerTyp : String → Option String
  /-- Outcome of cryptographic validation for a token (see `validate_token`). -/
  verify : String → VerifyOutcome
  /-- Token-endpoint response for exchanging an offline token. -/
  exchangeHttp : String → Except Unit ExchangeResp
  /-- `_hash_token` (SHA-256 hex digest). -/
  hashFn : String → String

/-- `OIDCAuthenticator.authenticate_request`. Returns the `AuthResult`, the
updated access-token cache, and whether a token exchange was performed. -/
def authenticate_request (cfg : OIDCConfig) (oracle : AuthOracle)
    (st : AccessTokenCache) (now : Int) (auth_header : String) :
    AuthResult × AccessTokenCache × Bool :=
  match extract_token_from_header auth_header with
  | (_, some err) =>
    ({ authenticated := false, error := some err, status_code := 401 }, st, false)
  | (tokOpt, none) =>
    let token := tokOpt.getD ""
    if is_access_token cfg.offline_token_enabled token (oracle.payloadTyp token)
        (oracle.headerTyp token) then
      (validate_token cfg (oracle.verify token), st, false)
    else if ¬ cfg.offline_token_enabled then
      ({ authenticated := false,
         error := some "Invalid token format. Expected JWT access token.",
         status_code := 401 }, st, false)
    else
      match get_access_token_from_offline cfg.access_token_cache_buffer
          oracle.hashFn (oracle.exchangeHttp token) st now token with
      | .error _ =>
        ({ authenticated := false,
           error := some "Token exchange failed. Please check your offline token.",
           status_code := 401 }, st, false)
      | .ok (access_token, stNew, exchanged) =>
        (validate_token cfg (oracle.verify access_token), stNew, exchanged)

/-- `OIDCAuthenticator.should_skip_auth`. -/
def should_skip_auth (cfg : OIDCConfig) (path : String) : Bool :=
  cfg.skip_paths.any (fun sp => startsWith sp path)

/-- `OIDCAuthenticator.is_enabled`. -/
def is_enabled (cfg : OIDCConfig) : Bool :=
  cfg.enabled && cfg.issuer_url ≠ "" && cfg.client_id ≠ ""

/-! ### HTTP middleware (`auth_middleware.py`) -/

/-- The identity dict attached to the ASGI scope as `scope["user"]`. -/
structure UserInfo where
  id : Option String
  username : Option String
  email : Option String
  groups : List String
  scopes : List String
deriving Repr, DecidableEq

/-- Observable outcome of one `AuthMiddleware.__call__`: either the downstream
app is invoked (with or without an attached user), or a JSON error response is
sent and the downstream app is never invoked. -/
inductive MiddlewareAction where
  /-- `await self.app(scope, receive, send)` without touching the scope. -/
  | passthrough
  /-- `scope["user"]` set, then `await self.app(scope, receive, send)`. -/
  | forwardWithUser (user : UserInfo)
  /-- `JSONResponse` sent with body
  `{"error": body_error, "message": body_message}`, the given HTTP status and
  the given `WWW-Authenticate` header value; downstream app not invoked. -/
  | reject (body_error : String) (body_message : Option String) (status : Nat)
      (www_authenticate : String)
deriving Repr, DecidableEq

/-- `AuthMiddleware.__call__`. `scope_type` is `scope["type"]`, `path` is
`scope.get("path", "")` and `auth_header` the decoded `authorization` header
(`""` when absent). -/
def middleware_call (cfg : OIDCConfig) (oracle : AuthOracle)
    (st : AccessTokenCache) (now : Int) (scope_type : String) (path : String)
    (auth_header : String) : MiddlewareAction :=
  if scope_type ≠ "http" then .passthrough
  else if ¬ is_enabled cfg then .passthrough
  else if should_skip_auth cfg path then .passthrough
  else
    let result := (authenticate_request cfg oracle st now auth_header).1
    if ¬ result.authenticated then
      .reject "authentication_failed" result.error result.status_code
        "Bearer realm=\"konflux-devlake-mcp\""
    else
      .forwardWithUser
        { id := result.user_id, username := result.username,
          email := result.email, groups := result.groups,
          scopes := result.scopes }

/-- The fields of the application config's `oidc` section that
`create_auth_middleware` reads. -/
structure AppOidcSettings where
  enabled : Bool
  issuer_url : String
  client_id : String
  required_scopes : List String
  jwks_cache_ttl : Int
  skip_paths : List String
  verify_ssl : Bool
deriving Repr, DecidableEq

/-- The `OIDCConfig` constructed by `create_auth_middleware`
(`auth_middleware.py` lines 140–148): only seven fields are passed, so
`allowed_algorithms`, `offline_token_enabled`, `token_exchange_client_id` and
`access_token_cache_buffer` keep their dataclass defaults. -/
def create_auth_middleware_oidc_config (c : AppOidcSettings) : OIDCConfig :=
  { enabled := c.enabled, issuer_url := c.issuer_url, client_id := c.client_id,
    required_scopes := c.required_scopes, jwks_cache_ttl := c.jwks_cache_ttl,
    skip_paths := c.skip_paths, verify_ssl := c.verify_ssl }

/-- `msg` contains `sub` as a (contiguous) substring. -/
def containsSub (msg sub : String) : Prop := ∃ a b, msg = a ++ sub ++ b

/-! ### Helper lemmas -/

theorem str_append_assoc (a b c : String) : a ++ b ++ c = a ++ (b ++ c) := by
  cases a with | mk xs =>
  cases b with | mk ys =>
  cases c with | mk zs =>
  show String.mk ((xs ++ ys) ++ zs) = String.mk (xs ++ (ys ++ zs))
  rw [List.append_assoc]

theorem cacheLookup_cacheInsert (st : AccessTokenCache) (k : String)
    (v : String × Int) : cacheLookup (cacheInsert st k v) k = some v := by
  simp [cacheInsert, cacheLookup]

theorem formatScopeSet_contains :
    ∀ (l : List String) (s : String), s ∈ l →
      ∃ a b, formatScopeSet l = a ++ s ++ b := by
  intro l
  induction l with
  | nil => intro s hs; cases hs
  | cons x rest ih =>
    intro s hs
    rcases List.mem_cons.mp hs with hx | hrest
    · subst hx
      cases rest with
      | nil => exact ⟨"\x27", "\x27", rfl⟩
      | cons y ys =>
        refine ⟨"\x27", "\x27, " ++ formatScopeSet (y :: ys), ?_⟩
        show "\x27" ++ s ++ "\x27, " ++ formatScopeSet (y :: ys) = _
        rw [str_append_assoc]
    · have hne : rest ≠ [] := List.ne_nil_of_mem hrest
      obtain ⟨y, ys, hrw⟩ := List.exists_cons_of_ne_nil hne
      subst hrw
      obtain ⟨a, b, hab⟩ := ih s hrest
      refine ⟨"\x27" ++ x ++ "\x27, " ++ a, b, ?_⟩
      show "\x27" ++ x ++ "\x27, " ++ formatScopeSet (y :: ys) = _
      rw [hab, ← str_append_assoc, ← str_append_assoc]

/-! ### Claim theorems -/

/-- C2: the classifier gives the unverified payload `typ` precedence over the
header. For every 3-segment token whose payload `typ` is case-insensitively
OFFLINE or REFRESH it returns false (offline) regardless of the header `typ`;
if the payload `typ` is case-insensitively BEARER it returns true (access
token); and every token without exactly 3 dot-separated segments returns
false (offline). -/
theorem C2_classifier_payload_precedence (enabled : Bool) (token : String)
    (pt ht : Option String) :
    ((splitOnChar '.' token).length = 3 →
      ∀ t, pt = some t → (upper t = "OFFLINE" ∨ upper t = "REFRESH") →
        is_access_token enabled token pt ht = false) ∧
    ((splitOnChar '.' token).length = 3 →
      ∀ t, pt = some t → upper t = "BEARER" →
        is_access_token enabled token pt ht = true) ∧
    ((splitOnChar '.' token).length ≠ 3 →
      is_access_token enabled token pt ht = false) := by
  refine ⟨?_, ?_, ?_⟩
  · intro hlen t hpt htyp
    subst hpt
    rcases htyp with h | h <;> simp [is_access_token, hlen, h]
  · intro hlen t hpt htyp
    subst hpt
    simp [is_access_token, hlen, htyp]
  · intro hlen
    simp [is_access_token, hlen]

/-- C2 witness: a 3-segment token with payload `typ="Offline"` is offline even
with header `typ="JWT"` and offline support enabled; payload `typ="Bearer"`
is an access token even with header `typ="Refresh"`; a 1-segment opaque
string is offline. -/
theorem C2_classifier_payload_precedence_witness :
    is_access_token true "a.b.c" (some "Offline") (some "JWT") = false ∧
    is_access_token false "a.b.c" (some "Bearer") (some "Refresh") = true ∧
    is_access_token false "opaquestring" (some "Bearer") none = false :=
  ⟨(C2_classifier_payload_precedence true "a.b.c" (some "Offline")
      (some "JWT")).1 (by decide) "Offline" rfl (Or.inl (by decide)),
   (C2_classifier_payload_precedence false "a.b.c" (some "Bearer")
      (some "Refresh")).2.1 (by decide) "Bearer" rfl (by decide),
   (C2_classifier_payload_precedence false "opaquestring" (some "Bearer")
      none).2.2 (by decide)⟩

/-- C3: `_extract_token_from_header` returns "Authorization header is
required" for the empty header, "Invalid Authorization header format" when
the header does not split into exactly two whitespace-separated parts,
"Authorization scheme must be Bearer" when the first part is not
case-insensitively `Bearer`, and otherwise the second part with no error. -/
theorem C3_extract_token_cases (h : String) :
    (h = "" →
      extract_token_from_header h =
        (none, some "Authorization header is required")) ∧
    (h ≠ "" → (pySplit h).length ≠ 2 →
      extract_token_from_header h =
        (none, some "Invalid Authorization header format")) ∧
    (∀ scheme token, h ≠ "" → pySplit h = [scheme, token] →
      lower scheme ≠ "bearer" →
      extract_token_from_header h =
        (none, some "Authorization scheme must be Bearer")) ∧
    (∀ scheme token, h ≠ "" → pySplit h = [scheme, token] →
      lower scheme = "bearer" →
      extract_token_from_header h = (some token, none)) := by
  refine ⟨?_, ?_, ?_, ?_⟩
  · intro he
    simp [extract_token_from_header, he]
  · intro hne hlen
    unfold extract_token_from_header
    rw [if_neg hne]
    rcases hp : pySplit h with _ | ⟨a, _ | ⟨b, _ | ⟨c, t⟩⟩⟩ <;> try rfl
    rw [hp] at hlen
    simp at hlen
  · intro scheme token hne hp hlow
    unfold extract_token_from_header
    rw [if_neg hne, hp]
    simp [hlow]
  · intro scheme token hne hp hlow
    unfold extract_token_from_header
    rw [if_neg hne, hp]
    simp [hlow]

/-- C3 witness: the four cases at the spec's concrete examples `""`,
`"Bearer"`, `"Basic xyz"` and `"Bearer abc.def.ghi"`. -/
theorem C3_extract_token_cases_witness :
    extract_token_from_header "" =
      (none, some "Authorization header is required") ∧
    extract_token_from_header "Bearer" =
      (none, some "Invalid Authorization header format") ∧
    extract_token_from_header "Basic xyz" =
      (none, some "Authorization scheme must be Bearer") ∧
    extract_token_from_header "Bearer abc.def.ghi" =
      (some "abc.def.ghi", none) :=
  ⟨(C3_extract_token_cases "").1 rfl,
   (C3_extract_token_cases "Bearer").2.1 (by decide) (by decide),
   (C3_extract_token_cases "Basic xyz").2.2.1 "Basic" "xyz" (by decide)
     (by decide) (by decide),
   (C3_extract_token_cases "Bearer abc.def.ghi").2.2.2 "Bearer" "abc.def.ghi"
     (by decide) (by decide) (by decide)⟩

/-- C1 counterexample: on the token `"x.y.z"` — which has exactly 3
dot-separated segments and is fully inconclusive because the payload decode
fails (`none`) and the header decode itself fails (`none`) — with
`offline_token_enabled = false`, the classifier returns false (offline), not
true as the claim states: the `jwt.get_unverified_header` exception is caught
by the outer `except`, which returns `False`. -/
theorem C1_counterexample_header_decode_failure :
    (splitOnChar '.' "x.y.z").length = 3 ∧
    is_access_token false "x.y.z" none none = false := by
  decide

/-- C1 (amended): for a 3-segment token whose payload yields no decisive
`typ`, with `offline_token_enabled = false`: if the header decodes (even with
no decisive `typ`) the classifier returns true (access token); but if
decoding the header itself fails, it returns false (offline). -/
theorem C1_amended_classifier_default (token : String) (pt ht : Option String)
    (hlen : (splitOnChar '.' token).length = 3)
    (hpt : pt = none ∨ ∃ t, pt = some t ∧ upper t ≠ "OFFLINE" ∧
      upper t ≠ "REFRESH" ∧ upper t ≠ "BEARER") :
    (∀ t, ht = some t → strIn "REFRESH" (upper t) = false → upper t ≠ "RT" →
      is_access_token false token pt ht = true) ∧
    (ht = none → is_access_token false token pt ht = false) := by
  constructor
  · intro t hht hin hrt
    subst hht
    rcases hpt with hnone | ⟨u, hu, h1, h2, h3⟩
    · subst hnone
      simp [is_access_token, hlen, hin, hrt]
    · subst hu
      simp [is_access_token, hlen, h1, h2, h3, hin, hrt]
  · intro hht
    subst hht
    rcases hpt with hnone | ⟨u, hu, h1, h2, h3⟩
    · subst hnone
      simp [is_access_token, hlen]
    · subst hu
      simp [is_access_token, hlen, h1, h2, h3]

/-- C1 (amended) witness: for `"h.p.s"` with undecodable payload, a decoded
header `typ="JWT"` yields an access token, while a failed header decode
yields offline. -/
theorem C1_amended_classifier_default_witness :
    is_access_token false "h.p.s" none (some "JWT") = true ∧
    is_access_token false "h.p.s" none none = false :=
  ⟨(C1_amended_classifier_default "h.p.s" none (some "JWT") (by decide)
      (Or.inl rfl)).1 "JWT" rfl (by decide) (by decide),
   (C1_amended_classifier_default "h.p.s" none none (by decide)
      (Or.inl rfl)).2 rfl⟩

/-- C4: a `_fetch_jwks` call finding a cached entry of age strictly less than
`jwks_cache_ttl` returns the cached value without an upstream fetch; two
calls within the TTL window starting from an empty cache perform exactly one
upstream fetch; and a call at or after TTL expiry performs a new fetch and
replaces both the cached key set and its fetch timestamp. -/
theorem C4_jwks_cache_freshness (cfg : OIDCConfig) (st : JwksCacheState)
    (now t1 t2 : Int) (u u1 u2 : Jwks) :
    (∀ c, st.jwks_cache = some c →
      now - st.jwks_cache_time < cfg.jwks_cache_ttl →
      fetch_jwks cfg st now u = (c, st, false)) ∧
    (st.jwks_cache = none → t2 - t1 < cfg.jwks_cache_ttl →
      fetch_jwks cfg st t1 u1 =
        (u1, { jwks_cache := some u1, jwks_cache_time := t1 }, true) ∧
      fetch_jwks cfg { jwks_cache := some u1, jwks_cache_time := t1 } t2 u2 =
        (u1, { jwks_cache := some u1, jwks_cache_time := t1 }, false)) ∧
    (∀ c, st.jwks_cache = some c →
      now - st.jwks_cache_time ≥ cfg.jwks_cache_ttl →
      fetch_jwks cfg st now u =
        (u, { jwks_cache := some u, jwks_cache_time := now }, true)) := by
  refine ⟨?_, ?_, ?_⟩
  · intro c hc hlt
    simp [fetch_jwks, hc, hlt]
  · intro hn hlt
    constructor
    · simp [fetch_jwks, hn]
    · simp [fetch_jwks, hlt]
  · intro c hc hge
    simp [fetch_jwks, hc, not_lt.mpr hge]

/-- C4 witness: with the default TTL of 3600, a fresh hit at age 100 returns
the cache unfetched; calls at times 1000 and 1200 from an empty cache fetch
once; a call at age 3600 refetches and replaces value and timestamp. -/
theorem C4_jwks_cache_freshness_witness :
    fetch_jwks {} { jwks_cache := some "K", jwks_cache_time := 100 } 200 "K2" =
      ("K", { jwks_cache := some "K", jwks_cache_time := 100 }, false) ∧
    (fetch_jwks {} {} 1000 "K1" =
      ("K1", { jwks_cache := some "K1", jwks_cache_time := 1000 }, true) ∧
     fetch_jwks {} { jwks_cache := some "K1", jwks_cache_time := 1000 } 1200
        "K2" =
      ("K1", { jwks_cache := some "K1", jwks_cache_time := 1000 }, false)) ∧
    fetch_jwks {} { jwks_cache := some "K", jwks_cache_time := 100 } 3700
        "K2" =
      ("K2", { jwks_cache := some "K2", jwks_cache_time := 3700 }, true) :=
  ⟨(C4_jwks_cache_freshness {} { jwks_cache := some "K", jwks_cache_time := 100 }
      200 0 0 "K2" "" "").1 "K" rfl (by decide),
   (C4_jwks_cache_freshness {} {} 0 1000 1200 "" "K1" "K2").2.1 rfl (by decide),
   (C4_jwks_cache_freshness {} { jwks_cache := some "K", jwks_cache_time := 100 }
      3700 0 0 "K2" "" "").2.2 "K" rfl (by decide)⟩

/-- C5: a `_get_access_token_from_offline` call finding no cached entry
exchanges and caches `(token, now + expires_in)`; a second call with the same
offline token at `now < cachedExpiry - access_token_cache_buffer` returns the
cached access token without a second exchange; a call at
`now ≥ cachedExpiry - buffer` exchanges anew and overwrites the entry for
`hash(offlineToken)` with `(newAccessToken, now + expires_in)`, `expires_in`
defaulting to 300 when absent from the provider response. -/
theorem C5_access_token_cache (buffer : Int) (hashFn : String → String)
    (st : AccessTokenCache) (off : String) (t1 t2 : Int)
    (r1 r2 : Except Unit ExchangeResp) :
    (cacheLookup st (hashFn off) = none →
      ∀ tok ei, exchange_offline_token r1 = .ok (tok, ei) →
      get_access_token_from_offline buffer hashFn r1 st t1 off =
        .ok (tok, cacheInsert st (hashFn off) (tok, t1 + ei), true) ∧
      (t2 < (t1 + ei) - buffer →
        get_access_token_from_offline buffer hashFn r2
            (cacheInsert st (hashFn off) (tok, t1 + ei)) t2 off =
          .ok (tok, cacheInsert st (hashFn off) (tok, t1 + ei), false))) ∧
    (∀ ctok cexp, cacheLookup st (hashFn off) = some (ctok, cexp) →
      t2 ≥ cexp - buffer →
      ∀ resp, r2 = .ok resp → ∀ ntok, resp.access_token = some ntok →
      get_access_token_from_offline buffer hashFn r2 st t2 off =
        .ok (ntok,
          cacheInsert st (hashFn off) (ntok, t2 + resp.expires_in.getD 300),
          true) ∧
      cacheLookup
          (cacheInsert st (hashFn off) (ntok, t2 + resp.expires_in.getD 300))
          (hashFn off) =
        some (ntok, t2 + resp.expires_in.getD 300)) := by
  constructor
  · intro hnone tok ei hx
    constructor
    · simp [get_access_token_from_offline, hnone, hx]
    · intro hlt
      simp [get_access_token_from_offline, cacheLookup_cacheInsert, hlt]
  · intro ctok cexp hsome hge resp hr2 ntok hat
    subst hr2
    constructor
    · simp [get_access_token_from_offline, hsome, not_lt.mpr hge,
        exchange_offline_token, hat]
    · exact cacheLookup_cacheInsert st (hashFn off) _

/-- C5 witness: from an empty cache, exchanging `"OFF"` at time 1000 with a
response lacking `expires_in` caches expiry 1300 (default 300); a second call
at 1100 (< 1240 = 1300 − 60) returns the cached token without exchanging; a
call at 1250 (≥ 1240) exchanges anew and overwrites the entry with
`("AT2", 1850)`. -/
theorem C5_access_token_cache_witness :
    get_access_token_from_offline 60 id
        (.ok { access_token := some "AT" }) [] 1000 "OFF" =
      .ok ("AT", [("OFF", "AT", 1300)], true) ∧
    get_access_token_from_offline 60 id
        (.ok { access_token := some "AT3" }) [("OFF", "AT", 1300)] 1100
        "OFF" =
      .ok ("AT", [("OFF", "AT", 1300)], false) ∧
    get_access_token_from_offline 60 id
        (.ok { access_token := some "AT2", expires_in := some 600 })
        [("OFF", "AT", 1300)] 1250 "OFF" =
      .ok ("AT2", [("OFF", "AT2", 1850)], true) ∧
    cacheLookup [("OFF", "AT2", 1850)] "OFF" = some ("AT2", 1850) := by
  have h1 := (C5_access_token_cache 60 id [] "OFF" 1000 1100
    (.ok { access_token := some "AT" })
    (.ok { access_token := some "AT3" })).1 rfl "AT" 300 rfl
  have h2 := (C5_access_token_cache 60 id [("OFF", "AT", 1300)] "OFF" 0 1250
    (.ok { access_token := some "AT" })
    (.ok { access_token := some "AT2", expires_in := some 600 })).2
    "AT" 1300 rfl (by decide)
    { access_token := some "AT2", expires_in := some 600 } rfl "AT2" rfl
  exact ⟨h1.1, h1.2 (by decide), (h2.1).trans (by rfl), h2.2⟩

/-- C6: for a token that passes cryptographic verification, if
`required_scopes` is non-empty and the set difference
`required_scopes − granted scopes` is non-empty, `validate_token` returns
authenticated=false with status 403 and an error message containing every
missing scope name; if the difference is empty, it returns authenticated=true
with status 200. -/
theorem C6_scope_enforcement (cfg : OIDCConfig) (p : Payload) :
    (cfg.required_scopes ≠ [] →
      missingScopes cfg.required_scopes (pySplit (p.scope.getD "")) ≠ [] →
      (validate_token cfg (.ok p)).authenticated = false ∧
      (validate_token cfg (.ok p)).status_code = 403 ∧
      ∃ msg, (validate_token cfg (.ok p)).error = some msg ∧
        ∀ s ∈ missingScopes cfg.required_scopes (pySplit (p.scope.getD "")),
          containsSub msg s) ∧
    (missingScopes cfg.required_scopes (pySplit (p.scope.getD "")) = [] →
      (validate_token cfg (.ok p)).authenticated = true ∧
      (validate_token cfg (.ok p)).status_code = 200) := by
  constructor
  · intro hreq hmiss
    have hif :
        validate_token cfg (.ok p) =
          { authenticated := false,
            error := some ("Missing required scopes: \x7b" ++
              formatScopeSet
                (missingScopes cfg.required_scopes (pySplit (p.scope.getD "")))
              ++ "\x7d"),
            status_code := 403 } := by
      simp only [validate_token]
      rw [if_pos ⟨hreq, hmiss⟩]
    refine ⟨by rw [hif], by rw [hif], ?_⟩
    refine ⟨_, by rw [hif], ?_⟩
    intro s hs
    obtain ⟨a, b, hab⟩ := formatScopeSet_contains _ s hs
    refine ⟨"Missing required scopes: \x7b" ++ a, b ++ "\x7d", ?_⟩
    rw [hab]
    simp only [← str_append_assoc]
  · intro hmiss
    constructor <;>
      · simp only [validate_token]
        rw [if_neg (by simp [hmiss])]

/-- C6 witness: the spec's example — required scopes `admin` and `write`,
granted scope string `"openid profile"` — is rejected with 403 and a message
containing both missing names; granting `"openid admin write"` authenticates
with status 200. -/
theorem C6_scope_enforcement_witness :
    ((validate_token
        { enabled := true, issuer_url := "https://sso", client_id := "cid",
          required_scopes := ["admin", "write"] }
        (.ok { scope := some "openid profile" })).authenticated = false ∧
      (validate_token
        { enabled := true, issuer_url := "https://sso", client_id := "cid",
          required_scopes := ["admin", "write"] }
        (.ok { scope := some "openid profile" })).status_code = 403 ∧
      ∃ msg,
        (validate_token
          { enabled := true, issuer_url := "https://sso", client_id := "cid",
            required_scopes := ["admin", "write"] }
          (.ok { scope := some "openid profile" })).error = some msg ∧
        ∀ s ∈ missingScopes ["admin", "write"]
            (pySplit ((some "openid profile" : Option String).getD "")),
          containsSub msg s) ∧
    ((validate_token
        { enabled := true, issuer_url := "https://sso", client_id := "cid",
          required_scopes := ["admin", "write"] }
        (.ok { scope := some "openid admin write" })).authenticated = true ∧
      (validate_token
        { enabled := true, issuer_url := "https://sso", client_id := "cid",
          required_scopes := ["admin", "write"] }
        (.ok { scope := some "openid admin write" })).status_code = 200) :=
  ⟨(C6_scope_enforcement
      { enabled := true, issuer_url := "https://sso", client_id := "cid",
        required_scopes := ["admin", "write"] }
      { scope := some "openid profile" }).1 (by decide) (by decide),
   (C6_scope_enforcement
      { enabled := true, issuer_url := "https://sso", client_id := "cid",
        required_scopes := ["admin", "write"] }
      { scope := some "openid admin write" }).2 (by decide)⟩

/-- C7: `validate_token` never lets an exception escape — every verification
outcome maps to an `AuthResult`; in particular a configuration-layer
`RuntimeError` (discovery or JWKS fetch failure) yields
authenticated=false / 503 / "Authentication service unavailable", and any
other unexpected exception yields authenticated=false / 500 /
"Internal authentication error". -/
theorem C7_validate_error_mapping (cfg : OIDCConfig) :
    validate_token cfg .jwksUnavailable =
      { authenticated := false,
        error := some "Authentication service unavailable",
        status_code := 503 } ∧
    validate_token cfg .unexpectedError =
      { authenticated := false,
        error := some "Internal authentication error",
        status_code := 500 } :=
  ⟨rfl, rfl⟩

/-- C8: in `authenticate_request`, for a token classified as offline: with
`offline_token_enabled = false` the result is 401 "Invalid token format.
Expected JWT access token."; with it true and a failing exchange the result
is 401 (not 503) "Token exchange failed. Please check your offline token.";
and with a successful exchange the exchanged access token is passed to
`validate_token` and that result is returned. -/
theorem C8_offline_token_paths (cfg : OIDCConfig) (oracle : AuthOracle)
    (st : AccessTokenCache) (now : Int) (hdr token : String)
    (hex : extract_token_from_header hdr = (some token, none))
    (hoff : is_access_token cfg.offline_token_enabled token
      (oracle.payloadTyp token) (oracle.headerTyp token) = false) :
    (cfg.offline_token_enabled = false →
      authenticate_request cfg oracle st now hdr =
        ({ authenticated := false,
           error := some "Invalid token format. Expected JWT access token.",
           status_code := 401 }, st, false)) ∧
    (cfg.offline_token_enabled = true →
      (get_access_token_from_offline cfg.access_token_cache_buffer
          oracle.hashFn (oracle.exchangeHttp token) st now token =
            .error () →
        authenticate_request cfg oracle st now hdr =
          ({ authenticated := false,
             error :=
               some "Token exchange failed. Please check your offline token.",
             status_code := 401 }, st, false)) ∧
      (∀ atok stNew exchanged,
        get_access_token_from_offline cfg.access_token_cache_buffer
            oracle.hashFn (oracle.exchangeHttp token) st now token =
          .ok (atok, stNew, exchanged) →
        authenticate_request cfg oracle st now hdr =
          (validate_token cfg (oracle.verify atok), stNew, exchanged))) := by
  constructor
  · intro henb
    rw [henb] at hoff
    simp [authenticate_request, hex, hoff, henb]
  · intro henb
    rw [henb] at hoff
    constructor
    · intro hget
      simp [authenticate_request, hex, hoff, henb, hget]
    · intro atok stNew exchanged hget
      simp [authenticate_request, hex, hoff, henb, hget]

/-- C8 witness: for the opaque token `"opaque"` (classified offline): with
offline support disabled the explicit 401 rejection; with it enabled, a
failing exchange gives the 401 exchange-failure message, and a successful
exchange validates the exchanged token `"AT"`. -/
theorem C8_offline_token_paths_witness :
    authenticate_request {}
        { payloadTyp := fun _ => none, headerTyp := fun _ => none,
          verify := fun _ => .unexpectedError,
          exchangeHttp := fun _ => .error (), hashFn := id }
        [] 0 "Bearer opaque" =
      ({ authenticated := false,
         error := some "Invalid token format. Expected JWT access token.",
         status_code := 401 }, [], false) ∧
    authenticate_request { offline_token_enabled := true }
        { payloadTyp := fun _ => none, headerTyp := fun _ => none,
          verify := fun _ => .unexpectedError,
          exchangeHttp := fun _ => .error (), hashFn := id }
        [] 0 "Bearer opaque" =
      ({ authenticated := false,
         error :=
           some "Token exchange failed. Please check your offline token.",
         status_code := 401 }, [], false) ∧
    authenticate_request { offline_token_enabled := true }
        { payloadTyp := fun _ => none, headerTyp := fun _ => none,
          verify := fun _ => .unexpectedError,
          exchangeHttp :=
            fun _ => .ok { access_token := some "AT", expires_in := some 100 },
          hashFn := id }
        [] 0 "Bearer opaque" =
      (validate_token { offline_token_enabled := true }
        ((fun (_ : String) => VerifyOutcome.unexpectedError) "AT"),
       [("opaque", "AT", 100)], true) :=
  ⟨(C8_offline_token_paths {}
      { payloadTyp := fun _ => none, headerTyp := fun _ => none,
        verify := fun _ => .unexpectedError,
        exchangeHttp := fun _ => .error (), hashFn := id }
      [] 0 "Bearer opaque" "opaque" (by decide) (by decide)).1 rfl,
   ((C8_offline_token_paths { offline_token_enabled := true }
      { payloadTyp := fun _ => none, headerTyp := fun _ => none,
        verify := fun _ => .unexpectedError,
        exchangeHttp := fun _ => .error (), hashFn := id }
      [] 0 "Bearer opaque" "opaque" (by decide) (by decide)).2 rfl).1
     (by rfl),
   ((C8_offline_token_paths { offline_token_enabled := true }
      { payloadTyp := fun _ => none, headerTyp := fun _ => none,
        verify := fun _ => .unexpectedError,
        exchangeHttp :=
          fun _ => .ok { access_token := some "AT", expires_in := some 100 },
        hashFn := id }
      [] 0 "Bearer opaque" "opaque" (by decide) (by decide)).2 rfl).2
     "AT" [("opaque", "AT", 100)] true (by rfl)⟩

/-- C9: for an HTTP request whose path is not a skip path, with an active
authenticator: when `authenticate_request` is not authenticated the
middleware never invokes the downstream app and sends the JSON body
`{"error": "authentication_failed", "message": result.error}` with the
result's status code and a `WWW-Authenticate: Bearer realm="..."` header;
when authenticated it attaches `{id, username, email, groups, scopes}` as
the scope's user and forwards downstream. -/
theorem C9_middleware_dispatch (cfg : OIDCConfig) (oracle : AuthOracle)
    (st : AccessTokenCache) (now : Int) (path hdr : String)
    (hact : is_enabled cfg = true)
    (hskip : should_skip_auth cfg path = false) :
    ((authenticate_request cfg oracle st now hdr).1.authenticated = false →
      middleware_call cfg oracle st now "http" path hdr =
        .reject "authentication_failed"
          (authenticate_request cfg oracle st now hdr).1.error
          (authenticate_request cfg oracle st now hdr).1.status_code
          "Bearer realm=\"konflux-devlake-mcp\"") ∧
    ((authenticate_request cfg oracle st now hdr).1.authenticated = true →
      middleware_call cfg oracle st now "http" path hdr =
        .forwardWithUser
          { id := (authenticate_request cfg oracle st now hdr).1.user_id,
            username := (authenticate_request cfg oracle st now hdr).1.username,
            email := (authenticate_request cfg oracle st now hdr).1.email,
            groups := (authenticate_request cfg oracle st now hdr).1.groups,
            scopes :=
              (authenticate_request cfg oracle st now hdr).1.scopes }) := by
  constructor
  · intro hres
    simp [middleware_call, hact, hskip, hres]
  · intro hres
    simp [middleware_call, hact, hskip, hres]

/-- C9 witness: with an active authenticator, a request to `/mcp` with no
Authorization header is rejected with status 401, body error
`authentication_failed` and message "Authorization header is required",
without reaching the downstream app; a request whose token validates is
forwarded with the identity attached. -/
theorem C9_middleware_dispatch_witness :
    middleware_call
      { enabled := true, issuer_url := "https://sso", client_id := "cid" }
      { payloadTyp := fun _ => some "Bearer", headerTyp := fun _ => none,
        verify :=
          fun _ => .ok { sub := some "u1",
                         preferred_username := some "alice",
                         scope := some "openid" },
        exchangeHttp := fun _ => .error (), hashFn := id }
      [] 0 "http" "/mcp" "" =
      .reject "authentication_failed" (some "Authorization header is required")
        401 "Bearer realm=\"konflux-devlake-mcp\"" ∧
    middleware_call
      { enabled := true, issuer_url := "https://sso", client_id := "cid" }
      { payloadTyp := fun _ => some "Bearer", headerTyp := fun _ => none,
        verify :=
          fun _ => .ok { sub := some "u1",
                         preferred_username := some "alice",
                         scope := some "openid" },
        exchangeHttp := fun _ => .error (), hashFn := id }
      [] 0 "http" "/mcp" "Bearer a.b.c" =
      .forwardWithUser
        { id := some "u1", username := some "alice", email := none,
          groups := [], scopes := ["openid"] } :=
  ⟨((C9_middleware_dispatch
      { enabled := true, issuer_url := "https://sso", client_id := "cid" }
      { payloadTyp := fun _ => some "Bearer", headerTyp := fun _ => none,
        verify :=
          fun _ => .ok { sub := some "u1",
                         preferred_username := some "alice",
                         scope := some "openid" },
        exchangeHttp := fun _ => .error (), hashFn := id }
      [] 0 "/mcp" "" (by decide) (by decide)).1 (by decide)).trans (by rfl),
   ((C9_middleware_dispatch
      { enabled := true, issuer_url := "https://sso", client_id := "cid" }
      { payloadTyp := fun _ => some "Bearer", headerTyp := fun _ => none,
        verify :=
          fun _ => .ok { sub := some "u1",
                         preferred_username := some "alice",
                         scope := some "openid" },
        exchangeHttp := fun _ => .error (), hashFn := id }
      [] 0 "/mcp" "Bearer a.b.c" (by decide) (by decide)).2
     (by decide)).trans (by rfl)⟩

/-- C10: any middleware built by `create_auth_middleware` has offline token
support permanently disabled — the constructed `OIDCConfig` leaves
`offline_token_enabled` (false), `token_exchange_client_id` ("") and
`access_token_cache_buffer` (60) at their defaults — so every request
through it presenting a token classified as offline is rejected with 401 and
no token exchange is ever performed. -/
theorem C10_create_middleware_offline_disabled (c : AppOidcSettings) :
    (create_auth_middleware_oidc_config c).offline_token_enabled = false ∧
    (create_auth_middleware_oidc_config c).token_exchange_client_id = "" ∧
    (create_auth_middleware_oidc_config c).access_token_cache_buffer = 60 ∧
    ∀ (oracle : AuthOracle) (st : AccessTokenCache) (now : Int)
      (path hdr token : String),
      extract_token_from_header hdr = (some token, none) →
      is_access_token false token (oracle.payloadTyp token)
        (oracle.headerTyp token) = false →
      (authenticate_request (create_auth_middleware_oidc_config c) oracle st
          now hdr =
        ({ authenticated := false,
           error := some "Invalid token format. Expected JWT access token.",
           status_code := 401 }, st, false)) ∧
      (is_enabled (create_auth_middleware_oidc_config c) = true →
        should_skip_auth (create_auth_middleware_oidc_config c) path = false →
        middleware_call (create_auth_middleware_oidc_config c) oracle st now
            "http" path hdr =
          .reject "authentication_failed"
            (some "Invalid token format. Expected JWT access token.") 401
            "Bearer realm=\"konflux-devlake-mcp\"") := by
  refine ⟨rfl, rfl, rfl, ?_⟩
  intro oracle st now path hdr token hex hoff
  have hauth :
      authenticate_request (create_auth_middleware_oidc_config c) oracle st
          now hdr =
        ({ authenticated := false,
           error := some "Invalid token format. Expected JWT access token.",
           status_code := 401 }, st, false) := by
    simp [authenticate_request, hex, create_auth_middleware_oidc_config, hoff]
  refine ⟨hauth, ?_⟩
  intro hact hskip
  simp [middleware_call, hact, hskip, hauth]

/-- C10 witness: a concrete enabled app config yields
`offline_token_enabled = false`, the exchange defaults, and for the opaque
bearer token `"opaque"` on `/mcp` the 401 invalid-format rejection at both
the authenticator and middleware levels. -/
theorem C10_create_middleware_offline_disabled_witness :
    (create_auth_middleware_oidc_config
      { enabled := true, issuer_url := "https://sso", client_id := "cid",
        required_scopes := [], jwks_cache_ttl := 3600,
        skip_paths := ["/health", "/security"],
        verify_ssl := true }).offline_token_enabled = false ∧
    authenticate_request
        (create_auth_middleware_oidc_config
          { enabled := true, issuer_url := "https://sso", client_id := "cid",
            required_scopes := [], jwks_cache_ttl := 3600,
            skip_paths := ["/health", "/security"], verify_ssl := true })
        { payloadTyp := fun _ => none, headerTyp := fun _ => none,
          verify := fun _ => .unexpectedError,
          exchangeHttp := fun _ => .ok { access_token := some "AT" },
          hashFn := id }
        [] 0 "Bearer opaque" =
      ({ authenticated := false,
         error := some "Invalid token format. Expected JWT access token.",
         status_code := 401 }, [], false) ∧
    middleware_call
        (create_auth_middleware_oidc_config
          { enabled := true, issuer_url := "https://sso", client_id := "cid",
            required_scopes := [], jwks_cache_ttl := 3600,
            skip_paths := ["/health", "/security"], verify_ssl := true })
        { payloadTyp := fun _ => none, headerTyp := fun _ => none,
          verify := fun _ => .unexpectedError,
          exchangeHttp := fun _ => .ok { access_token := some "AT" },
          hashFn := id }
        [] 0 "http" "/mcp" "Bearer opaque" =
      .reject "authentication_failed"
        (some "Invalid token format. Expected JWT access token.") 401
        "Bearer realm=\"konflux-devlake-mcp\"" := by
  have h := (C10_create_middleware_offline_disabled
    { enabled := true, issuer_url := "https://sso", client_id := "cid",
      required_scopes := [], jwks_cache_ttl := 3600,
      skip_paths := ["/health", "/security"], verify_ssl := true })
  exact ⟨h.1,
    (h.2.2.2
      { payloadTyp := fun _ => none, headerTyp := fun _ => none,
        verify := fun _ => .unexpectedError,
        exchangeHttp := fun _ => .ok { access_token := some "AT" },
        hashFn := id }
      [] 0 "/mcp" "Bearer opaque" "opaque" (by decide) (by decide)).1,
    (h.2.2.2
      { payloadTyp := fun _ => none, headerTyp := fun _ => none,
        verify := fun _ => .unexpectedError,
        exchangeHttp := fun _ => .ok { access_token := some "AT" },
        hashFn := id }
      [] 0 "/mcp" "Bearer opaque" "opaque" (by decide) (by decide)).2
      (by decide) (by decide)⟩

end Oidc
